import Mathlib

/-!
Shallow embedding of the browser client in `src/frontend/app.js` and
`src/frontend/login.js`.  Strings are modelled as `List Char`; JavaScript
`null`/absent values as `Option`; JavaScript string truthiness (`""` and
`null` are falsy) is made explicit.  Each definition mirrors one place in
the source, cited in its doc comment.
-/

namespace LLMAudit

/-- Strings of the client, modelled as lists of characters. -/
abbrev Str := List Char

/-- The double-quote character `"`. -/
def quoteChar : Char := Char.ofNat 34

/-- The apostrophe character. -/
def aposChar : Char := Char.ofNat 39

/-- JavaScript whitespace (`StrWhiteSpace`): the characters skipped by
`String.prototype.trim` and by `parseFloat`'s leading-whitespace scan. -/
def isJsWhite (c : Char) : Bool :=
  c = ' ' || c = '\t' || c = '\n' || c = '\r' ||
  c = '\x0b' || c = '\x0c' || c = '\u00a0' || c = '\ufeff' || c = '\u1680' ||
  ('\u2000' ≤ c && c ≤ '\u200a') || c = '\u2028' || c = '\u2029' ||
  c = '\u202f' || c = '\u205f' || c = '\u3000'

/-- JavaScript line terminators, the characters `.` does not match in a
regular expression without the `s` flag. -/
def isLineTerm (c : Char) : Bool :=
  c = '\n' || c = '\r' || c = '\u2028' || c = '\u2029'

/-- JavaScript `String.prototype.trim`: drop whitespace from both ends. -/
def jsTrim (s : Str) : Str :=
  ((s.dropWhile isJsWhite).reverse.dropWhile isJsWhite).reverse

/-- JavaScript string truthiness on a nullable string: `null` and the empty
string are falsy (`!x` is true exactly then). -/
def jsStrFalsy : Option Str → Bool
  | none => true
  | some s => s.isEmpty

/-- `s.replace(/c/g, rep)` for a single-character pattern `c`: every
occurrence of `c` in `s` is replaced by `rep`. -/
def replaceChar (c : Char) (rep : Str) : Str → Str
  | [] => []
  | d :: t => (if d = c then rep else [d]) ++ replaceChar c rep t

/-- `escapeHtml` from `app.js` lines 61–68: the five sequential global
replaces `&`→`&amp;`, `<`→`&lt;`, `>`→`&gt;`, `"`→`&quot;`, `'`→`&#039;`,
applied in that order. -/
def escapeHtml (s : Str) : Str :=
  replaceChar aposChar "&#039;".data
    (replaceChar quoteChar "&quot;".data
      (replaceChar '>' "&gt;".data
        (replaceChar '<' "&lt;".data
          (replaceChar '&' "&amp;".data s))))

/-- A character list free of the four markup-significant characters that
`escapeHtml` removes (`<`, `>`, `"`, `'`). -/
def htmlSafe (l : Str) : Bool :=
  l.all (fun ch => !(ch = '<' || ch = '>' || ch = quoteChar || ch = aposChar))

/-- Whether the regular expression `:(.+)` of `app.js` line 80 matches the
label at position `i`: the character there is a colon and the following
character exists and is not a line terminator. -/
def matchAt (s : Str) (i : Nat) : Bool :=
  match s.drop i with
  | ':' :: d :: _ => !isLineTerm d
  | _ => false

/-- `label.split(/:(.+)/)` restricted to the two entries the code reads
(`parts[0]` and `parts[1]`): the text before the first match of `:(.+)`,
and the first capture (the greedy run of non-line-terminator characters
after that colon), `none` when the regex never matches. -/
def splitLabel : Str → Str × Option Str
  | [] => ([], none)
  | c :: rest =>
    if matchAt (c :: rest) 0 then
      ([], some (rest.takeWhile (fun d => !isLineTerm d)))
    else
      ((c :: (splitLabel rest).1), (splitLabel rest).2)

/-- `app.js` line 81: `parts[0] ? parts[0].trim() : ""`. -/
def titleOf (label : Str) : Str :=
  if (splitLabel label).1.isEmpty then [] else jsTrim (splitLabel label).1

/-- `app.js` line 82: `parts[1] ? parts[1].trim() : ""`. -/
def descOf (label : Str) : Str :=
  match (splitLabel label).2 with
  | none => []
  | some d => if d.isEmpty then [] else jsTrim d

/-- One rendered result card: the bold title text, and the description
element when it is rendered. -/
structure Card where
  title : Str
  desc : Option Str
deriving DecidableEq

/-- `app.js` lines 84–94: build one card from a label.  Title and
description are passed through `escapeHtml`; the description `div` is
emitted only when the escaped description is non-empty (truthy). -/
def renderCard (label : Str) : Card :=
  ⟨escapeHtml (titleOf label),
   if (escapeHtml (descOf label)).isEmpty then none
   else some (escapeHtml (descOf label))⟩

/-- One node appended to the results container. -/
inductive RenderNode where
  | notice : Str → RenderNode
  | card : Card → RenderNode
deriving DecidableEq

/-- The "no findings above threshold" notice text of `app.js` line 74. -/
def noFindingsMsg : Str := "未检测到高于阈值的漏洞。".data

/-- A parsed `/api/predict` success body as the renderer consumes it:
either field may be absent. -/
structure PredictResponse where
  labels : Option (List Str)
  probs : Option (List Str)

/-- `showResults` from `app.js` lines 70–98: destructure with defaults
`labels = []`, then either the single no-findings notice or one card per
label in input order. -/
def showResults (data : PredictResponse) : List RenderNode :=
  let labels := data.labels.getD []
  if labels.isEmpty then [RenderNode.notice noFindingsMsg]
  else labels.map (fun l => RenderNode.card (renderCard l))

/-- Number of notice nodes in a rendered output. -/
def countNotices (out : List RenderNode) : Nat :=
  out.countP (fun n => match n with | RenderNode.notice _ => true | _ => false)

/-- Number of card nodes in a rendered output. -/
def countCards (out : List RenderNode) : Nat :=
  out.countP (fun n => match n with | RenderNode.card _ => true | _ => false)

/-- A JavaScript number as far as this client distinguishes them: `NaN`,
signed infinity, or a finite value (kept exact as a rational; the client
never does arithmetic that observes double rounding). -/
inductive JsNum where
  | nan : JsNum
  | inf : Bool → JsNum
  | num : ℚ → JsNum
deriving DecidableEq

/-- Decimal digit run to a natural number. -/
def digitsToNat (l : Str) : Nat :=
  l.foldl (fun acc c => 10 * acc + (c.toNat - '0'.toNat)) 0

/-- Value of an integer-part digit run plus a fraction-part digit run. -/
def decValue (intPart fracPart : Str) : ℚ :=
  (digitsToNat intPart : ℚ) + (digitsToNat fracPart : ℚ) / (10 ^ fracPart.length : ℚ)

/-- Parse an unsigned decimal significand (`digits [. digits?] | . digits`)
at the front of `s`, returning its value and the unconsumed rest; `none`
when no such prefix exists. -/
def parseDec (s : Str) : Option (ℚ × Str) :=
  match s.span Char.isDigit with
  | ([], rest) =>
    match rest with
    | '.' :: r2 =>
      match r2.span Char.isDigit with
      | ([], _) => none
      | (d2, r3) => some (decValue [] d2, r3)
    | _ => none
  | (d1, rest) =>
    match rest with
    | '.' :: r2 =>
      match r2.span Char.isDigit with
      | (d2, r3) => some (decValue d1 d2, r3)
    | _ => some ((digitsToNat d1 : ℚ), rest)

/-- Parse an exponent part (`[eE] [+-]? digits`) at the front of `s`;
`none` when absent or malformed (in which case it is left unconsumed). -/
def parseExp (s : Str) : Option (Int × Str) :=
  match s with
  | c :: r1 =>
    if c = 'e' || c = 'E' then
      match r1 with
      | '+' :: r2 =>
        (match r2.span Char.isDigit with
         | ([], _) => none
         | (d, r3) => some ((digitsToNat d : Int), r3))
      | '-' :: r2 =>
        (match r2.span Char.isDigit with
         | ([], _) => none
         | (d, r3) => some (-(digitsToNat d : Int), r3))
      | _ =>
        match r1.span Char.isDigit with
        | ([], _) => none
        | (d, r3) => some ((digitsToNat d : Int), r3)
    else none
  | [] => none

/-- Scale a significand by a decimal exponent. -/
def applyExp (q : ℚ) (e : Int) : ℚ :=
  if 0 ≤ e then q * (10 ^ e.toNat : ℚ) else q / (10 ^ (-e).toNat : ℚ)

/-- JavaScript `parseFloat`: skip leading whitespace, read an optional
sign, then either `Infinity` or the longest decimal literal prefix with an
optional exponent; `NaN` when nothing parses.  Trailing characters are
ignored. -/
def parseFloat (s : Str) : JsNum :=
  let s1 := s.dropWhile isJsWhite
  let signed : Bool × Str :=
    match s1 with
    | '+' :: r => (false, r)
    | '-' :: r => (true, r)
    | _ => (false, s1)
  if "Infinity".data.isPrefixOf signed.2 then JsNum.inf signed.1
  else
    match parseDec signed.2 with
    | none => JsNum.nan
    | some (q, rest) =>
      let v : ℚ :=
        match parseExp rest with
        | some (e, _) => applyExp q e
        | none => q
      JsNum.num (if signed.1 then -v else v)

/-- `app.js` line 47: `parseFloat(thresholdInput.value || 0.5)`.  An empty
(falsy) input field makes `||` yield the number `0.5`, which `parseFloat`
coerces to the string `"0.5"`; any non-empty input is parsed as is. -/
def thresholdOf (input : Str) : JsNum :=
  parseFloat (if input.isEmpty then "0.5".data else input)

/-- The session-guard redirect test of `app.js` lines 13–25:
`if (!username || !token)` on the two `localStorage.getItem` results
(`none` models a missing key). -/
def sessionGuardRedirects (username token : Option Str) : Bool :=
  jsStrFalsy username || jsStrFalsy token

/-- `login.js` line 26: `data.token || "mock-token"` — the token written to
local storage on a successful login, given the response's `token` field. -/
def loginStoredToken (respToken : Option Str) : Str :=
  match respToken with
  | some t => if t.isEmpty then "mock-token".data else t
  | none => "mock-token".data

/-- `login.js` line 27: `data.username || username` — the username written
to local storage, given the response field and the submitted username. -/
def loginStoredUsername (submitted : Str) (respUsername : Option Str) : Str :=
  match respUsername with
  | some u => if u.isEmpty then submitted else u
  | none => submitted

/-- The three persisted local-storage keys. -/
structure Store where
  username : Option Str
  token : Option Str
  theme : Option Str
deriving DecidableEq

/-- Outcome of one account-action handler run: the store afterwards, the
alert messages shown to the user in order, and the navigation target when
the handler navigates. -/
structure FlowResult where
  store : Store
  alerts : List Str
  nav : Option Str
deriving DecidableEq

/-- Generic change-password failure message (`app.js` line 212). -/
def genericPwdErr : Str := "修改失败".data

/-- Prefix of the change-password failure alert (`app.js` line 221). -/
def pwdFailPrefix : Str := "❌ 修改失败：".data

/-- Default change-password success message (`app.js` line 214). -/
def pwdSuccessMsg : Str := "密码修改成功，请重新登录".data

/-- The change-password click handler of `app.js` lines 188–224, with the
prompt results and the server response as inputs: guard on a truthy
username, silently abort on a falsy prompt, then either the prefixed error
alert (store untouched) or the success alert followed by clearing the
three keys and replacing the page with the login page. -/
def changePwdHandler (st : Store) (oldPwd newPwd : Option Str)
    (respOk : Bool) (respError respMessage : Option Str) : FlowResult :=
  if jsStrFalsy st.username then
    ⟨st, ["请先登录！".data], some "/login.html".data⟩
  else if jsStrFalsy oldPwd then ⟨st, [], none⟩
  else if jsStrFalsy newPwd then ⟨st, [], none⟩
  else if respOk then
    ⟨⟨none, none, none⟩,
     [match respMessage with
      | some m => if m.isEmpty then pwdSuccessMsg else m
      | none => pwdSuccessMsg],
     some "/login.html".data⟩
  else
    ⟨st,
     [pwdFailPrefix ++
      (match respError with
       | some e => if e.isEmpty then genericPwdErr else e
       | none => genericPwdErr)],
     none⟩

/-- Outcome of the logout handler: final store, navigation target, alerts
shown to the user, and console-only log lines. -/
structure LogoutResult where
  store : Store
  nav : Option Str
  alerts : List Str
  logs : List Str
deriving DecidableEq

/-- The logout click handler of `app.js` lines 157–179: the fetch result
is only logged on failure (`console.warn`), then the three keys are
removed and the page is replaced with the login page unconditionally. -/
def logoutHandler (_st : Store) (fetchResult : Except Str Unit) : LogoutResult :=
  let logs : List Str :=
    match fetchResult with
    | Except.ok _ => []
    | Except.error e => ["退出登录上报失败:".data ++ e]
  ⟨⟨none, none, none⟩, some "/login.html".data, [], logs⟩

/-- The `/api/reload` request body: either path key may be absent. -/
structure ReloadPayload where
  adapter_path : Option Str
  base_path : Option Str
deriving DecidableEq

/-- The payload assembly of `app.js` lines 107–109: start from `{}` and
add each key only when the corresponding prompt result is truthy
(`prompt` returns `null` on cancel, modelled as `none`). -/
def buildReloadPayload (adapter base : Option Str) : ReloadPayload :=
  ⟨match adapter with
    | some a => if a.isEmpty then none else some a
    | none => none,
   match base with
    | some b => if b.isEmpty then none else some b
    | none => none⟩

/-! ## Helper lemmas -/

theorem mem_replaceChar {x c : Char} {rep s : Str} (hx : x ∈ replaceChar c rep s) :
    x ∈ rep ∨ (x ∈ s ∧ x ≠ c) := by
  induction s with
  | nil => simp [replaceChar] at hx
  | cons d t ih =>
    rw [replaceChar] at hx
    rcases List.mem_append.mp hx with h | h
    · by_cases hdc : d = c
      · subst hdc; simp [if_pos rfl] at h; exact Or.inl h
      · simp [if_neg hdc] at h
        subst h; exact Or.inr ⟨List.mem_cons_self _ _, hdc⟩
    · rcases ih h with h1 | ⟨h1, h2⟩
      · exact Or.inl h1
      · exact Or.inr ⟨List.mem_cons_of_mem _ h1, h2⟩

theorem not_mem_replaceChar {x c : Char} {rep s : Str}
    (hrep : x ∉ rep) (hs : x = c ∨ x ∉ s) : x ∉ replaceChar c rep s := by
  intro hx
  rcases mem_replaceChar hx with h | ⟨hm, hne⟩
  · exact hrep h
  · rcases hs with he | hns
    · exact hne he
    · exact hns hm

theorem lt_not_mem_escapeHtml (s : Str) : '<' ∉ escapeHtml s := by
  unfold escapeHtml
  refine not_mem_replaceChar (by decide) (Or.inr ?_)
  refine not_mem_replaceChar (by decide) (Or.inr ?_)
  refine not_mem_replaceChar (by decide) (Or.inr ?_)
  exact not_mem_replaceChar (by decide) (Or.inl rfl)

theorem gt_not_mem_escapeHtml (s : Str) : '>' ∉ escapeHtml s := by
  unfold escapeHtml
  refine not_mem_replaceChar (by decide) (Or.inr ?_)
  refine not_mem_replaceChar (by decide) (Or.inr ?_)
  exact not_mem_replaceChar (by decide) (Or.inl rfl)

theorem quote_not_mem_escapeHtml (s : Str) : quoteChar ∉ escapeHtml s := by
  unfold escapeHtml
  refine not_mem_replaceChar (by decide) (Or.inr ?_)
  exact not_mem_replaceChar (by decide) (Or.inl rfl)

theorem apos_not_mem_escapeHtml (s : Str) : aposChar ∉ escapeHtml s :=
  not_mem_replaceChar (by decide) (Or.inl rfl)

theorem htmlSafe_escapeHtml (s : Str) : htmlSafe (escapeHtml s) = true := by
  unfold htmlSafe
  rw [List.all_eq_true]
  intro x hx
  have h1 : x ≠ '<' := fun h => lt_not_mem_escapeHtml s (h ▸ hx)
  have h2 : x ≠ '>' := fun h => gt_not_mem_escapeHtml s (h ▸ hx)
  have h3 : x ≠ quoteChar := fun h => quote_not_mem_escapeHtml s (h ▸ hx)
  have h4 : x ≠ aposChar := fun h => apos_not_mem_escapeHtml s (h ▸ hx)
  simp [h1, h2, h3, h4]

theorem replaceChar_isEmpty (c : Char) (rep : Str) (hrep : rep ≠ []) (s : Str) :
    (replaceChar c rep s).isEmpty = s.isEmpty := by
  cases s with
  | nil => rfl
  | cons d t =>
    rw [replaceChar]
    by_cases hdc : d = c
    · rw [if_pos hdc]
      cases rep with
      | nil => exact absurd rfl hrep
      | cons r rt => rfl
    · rw [if_neg hdc]; rfl

theorem escapeHtml_isEmpty (s : Str) : (escapeHtml s).isEmpty = s.isEmpty := by
  unfold escapeHtml
  rw [replaceChar_isEmpty _ _ (by decide), replaceChar_isEmpty _ _ (by decide),
    replaceChar_isEmpty _ _ (by decide), replaceChar_isEmpty _ _ (by decide),
    replaceChar_isEmpty _ _ (by decide)]

theorem jsTrim_nil : jsTrim [] = [] := rfl

theorem titleOf_eq_trim (label : Str) : titleOf label = jsTrim (splitLabel label).1 := by
  unfold titleOf
  cases h : (splitLabel label).1 with
  | nil => simp [jsTrim_nil]
  | cons c t => simp

theorem descOf_eq_trim (label : Str) (d : Str) (h : (splitLabel label).2 = some d) :
    descOf label = jsTrim d := by
  unfold descOf
  rw [h]
  cases d with
  | nil => simp [jsTrim_nil]
  | cons c t => simp

theorem descOf_of_none (label : Str) (h : (splitLabel label).2 = none) :
    descOf label = [] := by
  unfold descOf
  rw [h]

theorem matchAt_cons_succ (c : Char) (rest : Str) (i : Nat) :
    matchAt (c :: rest) (i + 1) = matchAt rest i := rfl

theorem matchAt_of_le (s : Str) (i : Nat) (h : s.length ≤ i) : matchAt s i = false := by
  unfold matchAt
  rw [List.drop_eq_nil_of_le h]

theorem splitLabel_of_no_match (s : Str) (h : ∀ i, matchAt s i = false) :
    splitLabel s = (s, none) := by
  induction s with
  | nil => rfl
  | cons c rest ih =>
    have h0 : matchAt (c :: rest) 0 = false := h 0
    have hrest : ∀ i, matchAt rest i = false := fun i => by
      rw [← matchAt_cons_succ c rest i]; exact h (i + 1)
    rw [splitLabel, if_neg (by rw [h0]; exact Bool.false_ne_true), ih hrest]

theorem splitLabel_of_first_match (s : Str) (i : Nat) (h1 : matchAt s i = true)
    (h2 : ∀ j, j < i → matchAt s j = false) :
    splitLabel s =
      (s.take i, some ((s.drop (i + 1)).takeWhile (fun d => !isLineTerm d))) := by
  induction s generalizing i with
  | nil =>
    exfalso
    have : matchAt [] i = false := matchAt_of_le [] i (Nat.zero_le i)
    rw [this] at h1; exact Bool.false_ne_true h1
  | cons c rest ih =>
    cases i with
    | zero =>
      rw [splitLabel, if_pos (by rw [h1])]
      rfl
    | succ k =>
      have h0 : matchAt (c :: rest) 0 = false := h2 0 (Nat.succ_pos k)
      have h1' : matchAt rest k = true := by rw [← matchAt_cons_succ c rest k]; exact h1
      have h2' : ∀ j, j < k → matchAt rest j = false := fun j hj => by
        rw [← matchAt_cons_succ c rest j]
        exact h2 (j + 1) (Nat.succ_lt_succ hj)
      rw [splitLabel, if_neg (by rw [h0]; exact Bool.false_ne_true), ih k h1' h2']
      rfl

theorem forall_matchAt_of_range_all (label : Str)
    (h : ((List.range label.length).all (fun j => !matchAt label j)) = true) :
    ∀ j, matchAt label j = false := by
  intro j
  by_cases hj : j < label.length
  · have := List.all_eq_true.mp h j (List.mem_range.mpr hj)
    simpa using this
  · exact matchAt_of_le label j (Nat.le_of_not_lt hj)

theorem parseFloat_half : parseFloat "0.5".data = JsNum.num (1 / 2) := by
  have h : parseFloat "0.5".data = JsNum.num (decValue ['0'] ['5']) := rfl
  rw [h]
  have h0 : digitsToNat ['0'] = 0 := by decide
  have h5 : digitsToNat ['5'] = 5 := by decide
  unfold decValue
  rw [h0, h5]
  congr 1
  norm_num

theorem parseFloat_fivehalves : parseFloat "2.5".data = JsNum.num (5 / 2) := by
  have h : parseFloat "2.5".data = JsNum.num (decValue ['2'] ['5']) := rfl
  rw [h]
  have h2 : digitsToNat ['2'] = 2 := by decide
  have h5 : digitsToNat ['5'] = 5 := by decide
  unfold decValue
  rw [h2, h5]
  congr 1
  norm_num

/-! ## Claim theorems -/

/-- Claim C1: `escapeHtml` rewrites each of the five characters
`& < > " '` to its entity, and the title and description of every rendered
card are escaped before insertion, so they contain no `<`, `>`, `"` or `'`
character — in particular no unescaped `<` or `>` for any label, including
those containing `<script>`. -/
theorem c1_renderer_escapes_html (label : Str) :
    escapeHtml ['&'] = "&amp;".data ∧ escapeHtml ['<'] = "&lt;".data ∧
    escapeHtml ['>'] = "&gt;".data ∧ escapeHtml [quoteChar] = "&quot;".data ∧
    escapeHtml [aposChar] = "&#039;".data ∧
    htmlSafe (renderCard label).title = true ∧
    htmlSafe ((renderCard label).desc.getD []) = true := by
  refine ⟨by decide, by decide, by decide, by decide, by decide, ?_, ?_⟩
  · exact htmlSafe_escapeHtml (titleOf label)
  · by_cases h : (escapeHtml (descOf label)).isEmpty
    · show htmlSafe ((if (escapeHtml (descOf label)).isEmpty then none
        else some (escapeHtml (descOf label))).getD []) = true
      rw [if_pos h]
      rfl
    · show htmlSafe ((if (escapeHtml (descOf label)).isEmpty then none
        else some (escapeHtml (descOf label))).getD []) = true
      rw [if_neg h]
      exact htmlSafe_escapeHtml (descOf label)

/-- Claim C2 is false as stated: the label `"A:"` contains a colon, so the
claim requires title `"A"`, but the splitting regex `:(.+)` demands a
character after the colon and never matches, so the whole label `"A:"`
becomes the title. -/
theorem c2_counterexample : ¬ (titleOf "A:".data = "A".data) := by decide

/-- Claim C2 (amended): the renderer splits at the first colon that is
followed by at least one non-line-terminator character; the title is the
trimmed text before that colon and the description is the trimmed maximal
run of non-line-terminator characters after it (later colons in that run
stay in the description).  If no such colon exists — no colon at all, a
trailing colon, or every colon followed directly by a line terminator —
the title is the whole trimmed label and no description element is
rendered; a description that trims to empty also renders no element. -/
theorem c2_split_amended (label : Str) :
    (((List.range label.length).all (fun j => !matchAt label j)) = true →
      titleOf label = jsTrim label ∧ (renderCard label).desc = none) ∧
    (∀ i, matchAt label i = true →
      ((List.range i).all (fun j => !matchAt label j)) = true →
      titleOf label = jsTrim (label.take i) ∧
      descOf label = jsTrim ((label.drop (i + 1)).takeWhile (fun d => !isLineTerm d))) ∧
    ((renderCard label).desc = none ↔ descOf label = []) := by
  refine ⟨?_, ?_, ?_⟩
  · intro h
    have hall := forall_matchAt_of_range_all label h
    have hs := splitLabel_of_no_match label hall
    refine ⟨by rw [titleOf_eq_trim, hs], ?_⟩
    have hd : descOf label = [] := descOf_of_none label (by rw [hs])
    show (if (escapeHtml (descOf label)).isEmpty then none
      else some (escapeHtml (descOf label))) = none
    rw [hd]
    rfl
  · intro i h1 h2
    have h2' : ∀ j, j < i → matchAt label j = false := fun j hj => by
      have := List.all_eq_true.mp h2 j (List.mem_range.mpr hj)
      simpa using this
    have hs := splitLabel_of_first_match label i h1 h2'
    exact ⟨by rw [titleOf_eq_trim, hs], descOf_eq_trim label _ (by rw [hs])⟩
  · show (if (escapeHtml (descOf label)).isEmpty then none
      else some (escapeHtml (descOf label))) = none ↔ descOf label = []
    rw [escapeHtml_isEmpty]
    cases hd : descOf label with
    | nil => simp
    | cons c t => simp

/-- Witness for `c2_split_amended` at the spec's own example label. -/
theorem c2_split_amended_witness :
    titleOf "A: B: C".data = "A".data ∧ descOf "A: B: C".data = "B: C".data := by
  have h := (c2_split_amended "A: B: C".data).2.1 1 (by decide) (by decide)
  exact ⟨h.1.trans (by decide), h.2.trans (by decide)⟩

/-- Claim C3 is false as stated: the non-empty unparsable input `"abc"` is
passed to `parseFloat` unchanged, so the threshold is `NaN`, not `0.5`. -/
theorem c3_counterexample :
    thresholdOf "abc".data = JsNum.nan ∧
    ¬ (thresholdOf "abc".data = JsNum.num (1 / 2)) := by
  exact ⟨by decide, by decide⟩

/-- Claim C3 (amended): the threshold sent to the predict endpoint is the
floating-point parse of the user's input whenever that input is non-empty
— which is `NaN` when the non-empty input is unparsable — and it equals
0.5 exactly in the empty-input case. -/
theorem c3_threshold_amended :
    thresholdOf [] = JsNum.num (1 / 2) ∧
    (∀ input : Str, input ≠ [] → thresholdOf input = parseFloat input) ∧
    parseFloat "abc".data = JsNum.nan := by
  refine ⟨parseFloat_half, ?_, by decide⟩
  intro input h
  cases input with
  | nil => exact absurd rfl h
  | cons c t => rfl

/-- Witness for `c3_threshold_amended` on a parsable non-empty input. -/
theorem c3_threshold_amended_witness :
    thresholdOf "2.5".data = parseFloat "2.5".data ∧
    thresholdOf "2.5".data = JsNum.num (5 / 2) :=
  ⟨c3_threshold_amended.2.1 "2.5".data (by decide),
   (c3_threshold_amended.2.1 "2.5".data (by decide)).trans parseFloat_fivehalves⟩

/-- Claim C4 is false as stated: with `username` present but equal to the
empty string and `token` present, both values are present yet the guard
redirects, because the code tests JavaScript truthiness, not presence. -/
theorem c4_counterexample :
    ¬ (sessionGuardRedirects (some []) (some "t".data) = true ↔
        (some ([] : Str) = none ∨ some "t".data = none)) := by decide

/-- Claim C4 (amended): the guard redirects iff at least one of the two
stored values is absent or the empty string (falsy). -/
theorem c4_guard_amended (username token : Option Str) :
    sessionGuardRedirects username token = true ↔
      (username = none ∨ username = some [] ∨ token = none ∨ token = some []) := by
  cases username with
  | none => simp [sessionGuardRedirects, jsStrFalsy]
  | some u =>
    cases token with
    | none => cases u <;> simp [sessionGuardRedirects, jsStrFalsy]
    | some t => cases u <;> cases t <;> simp [sessionGuardRedirects, jsStrFalsy]

/-- Claim C5 is false as stated: a server response whose `token` field is
present but empty does not store that token — the placeholder is stored,
because `data.token || "mock-token"` tests truthiness, not presence. -/
theorem c5_counterexample : ¬ (loginStoredToken (some []) = ([] : Str)) := by decide

/-- Claim C5 (amended): on a successful login the stored token is the
server token when it is a non-empty string and the placeholder
`"mock-token"` when the field is omitted or empty; the stored username is
the server username when non-empty and the submitted username when the
field is omitted or empty.  The spec's two concrete examples hold. -/
theorem c5_login_stores_amended :
    (loginStoredToken (some "abc".data) = "abc".data ∧
     loginStoredUsername "alice".data none = "alice".data ∧
     loginStoredToken none = "mock-token".data) ∧
    (∀ t : Str, t ≠ [] → loginStoredToken (some t) = t) ∧
    (∀ s u : Str, u ≠ [] → loginStoredUsername s (some u) = u) ∧
    (∀ s : Str, loginStoredUsername s none = s ∧ loginStoredUsername s (some []) = s) ∧
    loginStoredToken (some []) = "mock-token".data := by
  refine ⟨by decide, ?_, ?_, ?_, by decide⟩
  · intro t ht
    cases t with
    | nil => exact absurd rfl ht
    | cons c r => rfl
  · intro s u hu
    cases u with
    | nil => exact absurd rfl hu
    | cons c r => rfl
  · intro s
    exact ⟨rfl, rfl⟩

/-- Witness for `c5_login_stores_amended` at concrete server responses. -/
theorem c5_login_stores_amended_witness :
    loginStoredToken (some "abc".data) = "abc".data ∧
    loginStoredUsername "alice".data (some "bob".data) = "bob".data :=
  ⟨c5_login_stores_amended.1.1,
   c5_login_stores_amended.2.2.1 "alice".data "bob".data (by decide)⟩

/-- Claim C6 is false as stated: on the failure response
`{error:"wrong password"}` the alert text is the prefixed string
`"❌ 修改失败：wrong password"`, not the bare `error` field. -/
theorem c6_counterexample :
    (changePwdHandler ⟨some "u".data, some "t".data, some "light".data⟩
        (some "a".data) (some "b".data) false (some "wrong password".data) none).alerts
      ≠ ["wrong password".data] := by decide

/-- Claim C6 (amended): on a change-password failure the displayed message
is the fixed failure prefix followed by the server `error` field (or by
the generic message when that field is absent or empty), the local session
keys are unchanged and no navigation happens; the keys are cleared and the
page replaced by the login page only on success. -/
theorem c6_change_password_amended (st : Store) (oldPwd newPwd : Option Str)
    (respOk : Bool) (respError respMessage : Option Str)
    (hu : jsStrFalsy st.username = false)
    (ho : jsStrFalsy oldPwd = false) (hn : jsStrFalsy newPwd = false) :
    (respOk = false →
      (changePwdHandler st oldPwd newPwd respOk respError respMessage).store = st ∧
      (changePwdHandler st oldPwd newPwd respOk respError respMessage).nav = none) ∧
    (respOk = false → ∀ e : Str, respError = some e → e ≠ [] →
      (changePwdHandler st oldPwd newPwd respOk respError respMessage).alerts
        = [pwdFailPrefix ++ e]) ∧
    (respOk = false → respError = none →
      (changePwdHandler st oldPwd newPwd respOk respError respMessage).alerts
        = [pwdFailPrefix ++ genericPwdErr]) ∧
    (respOk = true →
      (changePwdHandler st oldPwd newPwd respOk respError respMessage).store
        = ⟨none, none, none⟩ ∧
      (changePwdHandler st oldPwd newPwd respOk respError respMessage).nav
        = some "/login.html".data) ∧
    (respOk = false → respError = some [] →
      (changePwdHandler st oldPwd newPwd respOk respError respMessage).alerts
        = [pwdFailPrefix ++ genericPwdErr]) := by
  unfold changePwdHandler
  rw [if_neg (by rw [hu]; exact Bool.false_ne_true),
    if_neg (by rw [ho]; exact Bool.false_ne_true),
    if_neg (by rw [hn]; exact Bool.false_ne_true)]
  cases respOk with
  | false =>
    refine ⟨fun _ => ⟨rfl, rfl⟩, fun _ e he hne => ?_, fun _ hnone => ?_,
      fun hok => absurd hok (by decide), fun _ hempty => ?_⟩
    · rw [he]
      cases e with
      | nil => exact absurd rfl hne
      | cons c r => rfl
    · rw [hnone]
      rfl
    · rw [hempty]
      rfl
  | true =>
    exact ⟨fun hok => absurd hok (by decide), fun hok => absurd hok (by decide),
      fun hok => absurd hok (by decide), fun _ => ⟨rfl, rfl⟩,
      fun hok => absurd hok (by decide)⟩

/-- Witness for `c6_change_password_amended` at the spec's failure
example. -/
theorem c6_change_password_amended_witness :
    (changePwdHandler ⟨some "u".data, some "t".data, some "light".data⟩
        (some "a".data) (some "b".data) false (some "wrong password".data) none).alerts
      = [pwdFailPrefix ++ "wrong password".data] ∧
    (changePwdHandler ⟨some "u".data, some "t".data, some "light".data⟩
        (some "a".data) (some "b".data) false (some "wrong password".data) none).store
      = ⟨some "u".data, some "t".data, some "light".data⟩ := by
  have h := c6_change_password_amended
    ⟨some "u".data, some "t".data, some "light".data⟩
    (some "a".data) (some "b".data) false (some "wrong password".data) none
    (by decide) (by decide) (by decide)
  exact ⟨h.2.1 rfl "wrong password".data rfl (by decide), (h.1 rfl).1⟩

/-- Claim C7: whatever the best-effort logout notification does — success
or a network error — the handler clears all three local keys, shows the
user nothing, and replaces the page with the login page. -/
theorem c7_logout_clears (st : Store) (fetchResult : Except Str Unit) :
    (logoutHandler st fetchResult).store = ⟨none, none, none⟩ ∧
    (logoutHandler st fetchResult).nav = some "/login.html".data ∧
    (logoutHandler st fetchResult).alerts = [] :=
  ⟨rfl, rfl, rfl⟩

/-- Claim C8: a path key appears in the reload request body with value `v`
iff the corresponding prompt returned exactly the non-empty string `v`;
with only an adapter path entered, the body carries `adapter_path` and has
no `base_path` key. -/
theorem c8_reload_payload (adapter base : Option Str) :
    (∀ v : Str, (buildReloadPayload adapter base).adapter_path = some v ↔
      (adapter = some v ∧ v ≠ [])) ∧
    (∀ v : Str, (buildReloadPayload adapter base).base_path = some v ↔
      (base = some v ∧ v ≠ [])) ∧
    (∀ p : Str, p ≠ [] → buildReloadPayload (some p) none = ⟨some p, none⟩) := by
  refine ⟨?_, ?_, ?_⟩
  · intro v
    cases adapter with
    | none => simp [buildReloadPayload]
    | some a =>
      cases a with
      | nil => simp [buildReloadPayload]
      | cons c t =>
        show some (c :: t) = some v ↔ (some (c :: t) = some v ∧ v ≠ [])
        refine ⟨fun h => ⟨h, fun hv => ?_⟩, fun h => h.1⟩
        rw [hv] at h
        exact List.cons_ne_nil c t (Option.some.inj h)
  · intro v
    cases base with
    | none => simp [buildReloadPayload]
    | some b =>
      cases b with
      | nil => simp [buildReloadPayload]
      | cons c t =>
        show some (c :: t) = some v ↔ (some (c :: t) = some v ∧ v ≠ [])
        refine ⟨fun h => ⟨h, fun hv => ?_⟩, fun h => h.1⟩
        rw [hv] at h
        exact List.cons_ne_nil c t (Option.some.inj h)
  · intro p hp
    cases p with
    | nil => exact absurd rfl hp
    | cons c t => rfl

/-- Witness for `c8_reload_payload` with only an adapter path entered. -/
theorem c8_reload_payload_witness :
    buildReloadPayload (some "adapters/v2".data) none =
      ⟨some "adapters/v2".data, none⟩ :=
  (c8_reload_payload (some "adapters/v2".data) none).2.2 "adapters/v2".data (by decide)

/-- Claim C9: for a response whose `labels` is the empty list, the renderer
emits exactly one no-findings notice and zero cards. -/
theorem c9_empty_labels_notice (probs : Option (List Str)) :
    showResults ⟨some [], probs⟩ = [RenderNode.notice noFindingsMsg] ∧
    countNotices (showResults ⟨some [], probs⟩) = 1 ∧
    countCards (showResults ⟨some [], probs⟩) = 0 :=
  ⟨rfl, rfl, rfl⟩

/-- Claim C10: a success body with no `labels` key at all takes the
destructuring default `[]` and renders exactly as the empty label list:
the single no-findings notice and zero cards. -/
theorem c10_missing_labels_total (probs : Option (List Str)) :
    showResults ⟨none, probs⟩ = showResults ⟨some [], probs⟩ ∧
    showResults ⟨none, probs⟩ = [RenderNode.notice noFindingsMsg] ∧
    countCards (showResults ⟨none, probs⟩) = 0 :=
  ⟨rfl, rfl, rfl⟩

end LLMAudit
